import Mathlib

/-!
# Verification of the EcoLoop AI image-analysis pipeline

Shallow embedding of the decision pipeline implemented in
`src/ai-service/app.py`: image-quality assessment (`check_image_quality`),
classifier-label category mapping (`classify_image_with_mobilenet`),
document-content detection (`detect_document_content`), suspicious-content
screening (`analyze_for_suspicious_content`) and the final decision engine
(`process_analysis_results`).

Modelling conventions:
* Percentages and scores are rational numbers (`Rat`); the Python code uses
  floats, but every constant and comparison relevant here is exact in `Rat`.
* The external MobileNetV2 classifier is an oracle: its decoded prediction
  list (label, confidence-in-percent) is an input to the embedding.
* The pixel-level heuristics (`detect_text_in_image`,
  `detect_document_visual_patterns`) are image-processing routines whose
  outputs feed the document detector; their result records (`TextResults`,
  `PatternResults`) are inputs to the embedding, quantified over in the
  theorems.
* Python string operations are modelled over `List Char`: `pyLower` is
  `str.lower` (ASCII case folding, as `Char.toLower` performs) and
  `strContains` is the Python `in` substring test.
-/

namespace Ecoloop

/-- ASCII lower-casing of a string, modelling Python `str.lower()` on the
ASCII label/filename strings this service handles. -/
def pyLower (s : String) : String := ⟨s.data.map Char.toLower⟩

/-- Helper: `leadsWith needle hay` is true when `needle` occurs at the start of
`hay`. -/
def leadsWith : List Char → List Char → Bool
  | [], _ => true
  | _ :: _, [] => false
  | a :: as, b :: bs => a == b && leadsWith as bs

/-- Helper: `subOccurs hay needle` is true when `needle` occurs contiguously inside
`hay`. -/
def subOccurs (hay needle : List Char) : Bool :=
  match hay with
  | [] => needle.isEmpty
  | _ :: rest => leadsWith needle hay || subOccurs rest needle

/-- Python's `needle in hay` substring test on strings. -/
def strContains (hay needle : String) : Bool := subOccurs hay.data needle.data

/-- One decoded classifier prediction: a raw ImageNet label together with its
confidence, already scaled to percent (`float(pred[2]) * 100`). -/
structure Prediction where
  label : String
  confidence : Rat
deriving DecidableEq, Repr

/-- Result of `classify_image_with_mobilenet` (app.py lines 184-230). -/
structure ClassificationResult where
  label : String
  raw_label : String
  confidence : Rat
  all_predictions : List Prediction
deriving DecidableEq, Repr

/-- Result of `check_image_quality` (app.py lines 112-182).  The `metrics`
diagnostic sub-dictionary carries no decision-relevant data and is omitted. -/
structure QualityResult where
  quality_score : Rat
  status : String
  issues : List String
deriving DecidableEq, Repr

/-- Decision-relevant output of the pixel heuristic `detect_text_in_image`
(app.py lines 232-379); `detect_document_content` reads exactly these
fields. -/
structure TextResults where
  has_text_pattern : Bool
  confidence : Rat
  organized_text : Bool
  line_clusters : Nat
  has_central_object : Bool
deriving DecidableEq, Repr

/-- Decision-relevant output of the pixel heuristic
`detect_document_visual_patterns` (app.py lines 381-535);
`detect_document_content` reads exactly these fields. -/
structure PatternResults where
  is_document_pattern : Bool
  confidence : Rat
  has_recyclable_shape : Bool
deriving DecidableEq, Repr

/-- Result of `detect_document_content` (app.py lines 537-669).  The
`evidence` list is diagnostic text; the decision engine and the suspicion
screener only read the fields kept here (the screener extends its own
evidence list with it, which no decision consumes). -/
structure DocResult where
  is_document : Bool
  confidence : Rat
  has_recyclable_indicators : Bool
  recyclable_confidence : Rat
  high_confidence_recyclable : Bool
deriving DecidableEq, Repr

/-- Result of `analyze_for_suspicious_content` (app.py lines 1333-1393),
minus the diagnostic `evidence` list which no decision consumes. -/
structure SuspicionResult where
  is_suspicious : Bool
  suspicious_score : Rat
  specific_issue : Option String
  high_confidence_recyclable : Bool
deriving DecidableEq, Repr

/-- Final verdict of `process_analysis_results` (app.py lines 1395-1525).
The Python dictionary's nested `admin` object is flattened into the three
`review_required` / `rejection_reason` / `specific_issue` fields. -/
structure Verdict where
  status : String
  material : String
  confidence : Rat
  raw_label : String
  is_document : Bool
  review_required : Bool
  rejection_reason : Option String
  specific_issue : Option String
  recommendations : List String
deriving DecidableEq, Repr

/-- The table `MARKETPLACE_CATEGORIES` (app.py lines 33-48), in declaration order:
Python `dict` iteration preserves insertion order, which the first-match
loop in `classify_image_with_mobilenet` relies on. -/
def MARKETPLACE_CATEGORIES : List (String × List String) :=
  [("fabric", ["jersey", "velvet", "wool", "denim", "kimono", "diaper", "quilt", "scarf", "stole", "gown", "abaya", "bathrobe", "cloak"]),
   ("cloth", ["jersey", "velvet", "wool", "denim", "bow_tie", "apron", "sock", "pajama", "raincoat", "T-shirt", "gown", "sweater", "cardigan", "hoodie"]),
   ("wood", ["park_bench", "picket_fence", "wooden_spoon", "cutting_board", "timber", "plywood", "crate", "pallet", "lumber", "driftwood", "branch", "sawdust"]),
   ("metal", ["chain_saw", "hammer", "wrench", "nail", "screw", "can_opener", "tin_can", "aluminum", "iron", "steel", "wire", "utensil", "spoon", "fork", "knife"]),
   ("plastic", ["plastic_bag", "bottle_cap", "container", "bucket", "cup", "straw", "polymer", "bottle", "toy", "tub", "tupperware", "PET", "HDPE", "PVC"]),
   ("glass", ["wine_bottle", "beer_bottle", "drinking_glass", "jar", "window", "vase", "mirror", "goblet", "tumbler", "jug", "container", "lens"]),
   ("paper", ["envelope", "book_jacket", "notebook", "menu", "cardboard", "carton", "box", "packaging", "newspaper", "magazine", "parchment"]),
   ("electronics", ["desktop_computer", "laptop", "cellular_telephone", "remote_control", "circuit", "board", "battery", "cable", "charger", "keyboard", "mouse"]),
   ("furniture", ["chair", "table", "desk", "bookshelf", "wardrobe", "sofa", "couch", "cupboard", "cabinet", "nightstand", "stool", "ottoman", "bench"]),
   ("tools", ["hammer", "screwdriver", "wrench", "saw", "drill", "pliers", "scissors", "cutter", "tape_measure", "level", "clamp", "vise", "chisel"]),
   ("rubber", ["tire", "boot", "mat", "band", "shoe_sole", "gasket", "eraser", "glove", "wader", "hose"]),
   ("leather", ["saddle", "suitcase", "handbag", "wallet", "boot", "shoe", "belt", "jacket", "briefcase", "purse"]),
   ("yarn", ["ball", "skein", "thread", "wool", "cotton", "acrylic", "knitting", "crochet", "embroidery", "spun", "string"]),
   ("natural", ["bamboo", "shell", "cork", "plant_fiber", "rattan", "jute", "wicker", "straw", "coconut", "seed", "pod", "leaf", "flower"])]

/-- The category-mapping loop of `classify_image_with_mobilenet` (app.py
lines 204-209): the first category, in declaration order, one of whose
keywords occurs as a substring of the lower-cased label; `other` when none
matches.  The keywords themselves are not lower-cased by the code. -/
def detected_category (label : String) : String :=
  ((MARKETPLACE_CATEGORIES.find?
      (fun c => c.2.any (fun kw => strContains (pyLower label) kw))).map Prod.fst).getD "other"

/-- The `except` branch of `classify_image_with_mobilenet` (app.py lines
223-230): a classifier failure is swallowed and replaced by this placeholder
result (the `error` message field is diagnostic only). -/
def classification_failure_result : ClassificationResult :=
  { label := "unknown", raw_label := "unknown", confidence := 0, all_predictions := [] }

/-- The function `classify_image_with_mobilenet` (app.py lines 184-230) on the decoded
prediction list returned by the classifier oracle.  Only the top prediction
is consulted for the category and confidence; the full list is echoed in
`all_predictions`.  An empty prediction list indexes out of range in Python
and lands in the same `except` branch as a classifier failure. -/
def classify_image_with_mobilenet (decoded_predictions : List Prediction) :
    ClassificationResult :=
  match decoded_predictions with
  | [] => classification_failure_result
  | top :: _ =>
    { label := detected_category top.label
      raw_label := top.label
      confidence := top.confidence
      all_predictions := decoded_predictions }

/-- The function `check_image_quality` (app.py lines 112-182).  `stats_failed` models the
`except` branch (OpenCV statistics could not be computed); `width`/`height`
are the pixel dimensions; `laplacian_var` and `brightness` are the
sharpness / mean-intensity statistics. -/
def check_image_quality (stats_failed : Bool) (width height : Nat)
    (laplacian_var brightness : Rat) : QualityResult :=
  if stats_failed then
    { quality_score := 50, status := "usable", issues := ["Quality check failed"] }
  else if height < 100 || width < 100 then
    { quality_score := 20, status := "low_quality", issues := ["Image too small"] }
  else
    let blur := laplacian_var < (100 : Rat)
    let dark := brightness < (50 : Rat)
    let bright := (200 : Rat) < brightness
    let quality_score : Rat :=
      100 - (if blur then (40 : Rat) else 0)
        - (if dark then (20 : Rat) else if bright then 20 else 0)
    let issues :=
      (if blur then ["Image appears blurry"] else [])
        ++ (if dark then ["Image too dark"] else if bright then ["Image too bright"] else [])
    let status :=
      if quality_score < 50 then "low_quality"
      else if quality_score < 70 then "blurry"
      else "usable"
    { quality_score := max quality_score 0, status := status, issues := issues }

/-- Filename keywords indicating a recyclable item (app.py line 545). -/
def recyclable_keywords : List String :=
  ["bottle", "container", "tool", "material", "plastic", "metal", "wood", "glass", "screw", "driver"]

/-- The fixed high-confidence recyclable lookup table `recyclable_labels`
(app.py lines 550-563).  Note the `Petri_dish` key: the code looks the
*lower-cased* raw label up in this table, so that entry can never match. -/
def recyclable_labels : List (String × Rat) :=
  [("bottle", 100), ("container", 90), ("plastic_bag", 90), ("water_bottle", 100),
   ("tool", 100), ("screwdriver", 100), ("measuring_cup", 90), ("lumbermill", 90),
   ("Petri_dish", 80), ("packet", 70), ("saltshaker", 90), ("utensil", 90)]

/-- The lookup `recyclable_labels.get(raw_label_lower, 0)` (app.py line 566). -/
def labelConfidenceOf (raw_label_lower : String) : Rat :=
  ((recyclable_labels.find? (fun p => p.1 == raw_label_lower)).map Prod.snd).getD 0

/-- Filename keywords indicating a document (app.py line 636). -/
def document_filename_keywords : List String :=
  ["doc", "card", "id", "certificate", "mail", "form"]

/-- Python `round(x, 1)` on the values reached here.  (Python uses
banker's rounding at exact midpoints; the only confidence this function is
applied to that any theorem inspects is `0`, where all conventions agree.) -/
def round1 (q : Rat) : Rat := ((⌊q * 10 + 1 / 2⌋ : Int) : Rat) / 10

/-- The function `detect_document_content` (app.py lines 537-669): combines the
recyclable-label lookup, the text heuristic and the visual-pattern heuristic
into a document signal, with an early return for high-confidence recyclable
labels and a final recyclable override. -/
def detect_document_content (textR : TextResults) (patR : PatternResults)
    (raw_label filename : String) : DocResult :=
  let filename_recyclable :=
    recyclable_keywords.any (fun k => strContains (pyLower filename) k)
  let raw_label_lower := pyLower raw_label
  let label_confidence := labelConfidenceOf raw_label_lower
  if (90 : Rat) ≤ label_confidence then
    { is_document := false
      confidence := 0
      has_recyclable_indicators := true
      recyclable_confidence := label_confidence
      high_confidence_recyclable := true }
  else
    -- `recyclable_evidence` is nonempty exactly when the filename matched or
    -- the label has a positive table value (app.py lines 546-572, 593).
    let has_ri₀ := filename_recyclable || decide ((0 : Rat) < label_confidence)
    let confidence₀ : Rat :=
      (if textR.has_text_pattern then
        (if (75 : Rat) < textR.confidence then textR.confidence * 35 / 100 else 0)
          + (if textR.organized_text && decide (6 ≤ textR.line_clusters) then (15 : Rat) else 0)
      else 0)
        + (if patR.is_document_pattern && decide ((65 : Rat) < patR.confidence) then
            patR.confidence * 25 / 100 else 0)
    let has_ri₁ := has_ri₀ || patR.has_recyclable_shape
    let recyclable_confidence₁ :=
      label_confidence + (if patR.has_recyclable_shape then (35 : Rat) else 0)
    let has_ri₂ := has_ri₁ || textR.has_central_object
    let recyclable_confidence₂ :=
      recyclable_confidence₁ + (if textR.has_central_object then (25 : Rat) else 0)
    let confidence₁ :=
      if has_ri₂ then max 0 (confidence₀ - min 70 recyclable_confidence₂) else confidence₀
    let is_document₀ := decide ((65 : Rat) < confidence₁) && !has_ri₂
    let filename_document :=
      document_filename_keywords.any (fun k => strContains (pyLower filename) k)
    let doc_by_filename :=
      filename_document && (!has_ri₂ || decide (recyclable_confidence₂ < (30 : Rat)))
    let is_document₁ := if doc_by_filename then true else is_document₀
    let confidence₂ := if doc_by_filename then max confidence₁ 75 else confidence₁
    let override :=
      decide ((60 : Rat) ≤ recyclable_confidence₂) || decide ((70 : Rat) ≤ label_confidence)
    let is_document₂ := if override then false else is_document₁
    let confidence₃ := if override then 0 else confidence₂
    { is_document := is_document₂
      confidence := min (round1 confidence₃) 100
      has_recyclable_indicators := has_ri₂
      recyclable_confidence := recyclable_confidence₂
      high_confidence_recyclable := false }

/-- Personal/portrait keywords (app.py line 1362). -/
def person_keywords : List String := ["person", "face", "people", "portrait", "selfie"]

/-- Screenshot/digital-content keywords (app.py line 1368). -/
def digital_keywords : List String := ["screenshot", "web_site", "display", "monitor"]

/-- Non-material keywords (app.py line 1374). -/
def non_material_keywords : List String := ["landscape", "scenery", "building", "food", "animal"]

/-- The function `analyze_for_suspicious_content` (app.py lines 1333-1393): accumulates a
suspicion score from low classification confidence, the document check (run
on the lower-cased raw label, with an empty filename), and the
personal/digital/non-material keyword screens. -/
def analyze_for_suspicious_content (textR : TextResults) (patR : PatternResults)
    (cls : ClassificationResult) : SuspicionResult :=
  let confidence := cls.confidence
  let score₁ : Rat := if confidence < 20 then 30 else 0
  let issue₁ : Option String := if confidence < 20 then some "low_confidence" else none
  let raw_label := pyLower cls.raw_label
  let doc_check := detect_document_content textR patR raw_label ""
  let hcr := doc_check.high_confidence_recyclable
  let doc_flag := !hcr && doc_check.is_document
  let score₂ := score₁ + (if doc_flag then (50 : Rat) else 0)
  let issue₂ := if doc_flag then some "document" else issue₁
  let person := person_keywords.any (fun w => strContains raw_label w)
  let digital := digital_keywords.any (fun w => strContains raw_label w)
  let nonMaterial := non_material_keywords.any (fun w => strContains raw_label w)
  let score₃ := score₂ +
    (if !hcr then
      (if person then (40 : Rat) else if digital then 35 else if nonMaterial then 30 else 0)
    else 0)
  let issue₃ :=
    if !hcr then
      (if person then some "personal_image"
       else if digital then some "digital_content"
       else if nonMaterial then some "non_material"
       else issue₂)
    else issue₂
  { is_suspicious := decide ((40 : Rat) < score₃)
    suspicious_score := score₃
    specific_issue := issue₃
    high_confidence_recyclable := hcr }

/-- The four acceptance recommendations (app.py lines 1415-1420 and
1487-1492). -/
def accepted_recommendations (cls : ClassificationResult) : List String :=
  ["Your image has been accepted",
   "Material identified: " ++ cls.label,
   "The image meets our marketplace quality standards",
   "Thank you for contributing to the EcoLoop community!"]

/-- The four submitted-for-review recommendations (app.py lines 1467-1472). -/
def review_recommendations : List String :=
  ["Your image has been submitted for review",
   "It will need to be approved by an admin before becoming visible",
   "Please ensure your post content follows our community guidelines",
   "For marketplace listings, please upload images focusing on the recyclable material itself"]

/-- Steps 3 and 4 of `process_analysis_results` (app.py lines 1474-1504),
reached when neither the high-confidence override, nor the document check,
nor the suspicion check fired: the quality gate, then the low-confidence
review gate. -/
def process_quality_tail (classification_result : ClassificationResult)
    (quality : QualityResult) (doc_is_document : Bool) : Verdict :=
  if quality.status == "low_quality" then
    { status := "rejected"
      material := classification_result.label
      confidence := classification_result.confidence
      raw_label := classification_result.raw_label
      is_document := doc_is_document
      review_required := false
      rejection_reason := some "low_quality"
      specific_issue := some "quality"
      recommendations :=
        "This image cannot be used due to quality issues:" :: quality.issues
          ++ ["Please upload a clear, well-lit photo of the material"] }
  else if classification_result.confidence < 50 then
    { status := "pending_review"
      material := classification_result.label
      confidence := classification_result.confidence
      raw_label := classification_result.raw_label
      is_document := doc_is_document
      review_required := true
      rejection_reason := none
      specific_issue := some "potential_suspicious"
      recommendations :=
        accepted_recommendations classification_result ++
          ["Your image has been submitted for review",
           "It will need to be approved by an admin before becoming visible",
           "Please ensure your uploads show only recyclable materials",
           "Items should be clearly visible and follow marketplace guidelines"] }
  else
    { status := "usable"
      material := classification_result.label
      confidence := classification_result.confidence
      raw_label := classification_result.raw_label
      is_document := doc_is_document
      review_required := false
      rejection_reason := none
      specific_issue := none
      recommendations := accepted_recommendations classification_result }

/-- The function `process_analysis_results` (app.py lines 1395-1525): the decision
engine.  Optional sub-results model the Python `None` defaults; a missing
quality result defaults to `{'status': 'usable', 'issues': []}` (the
defaulted dictionary carries no score; the `quality_score := 0` below is
never read). -/
def process_analysis_results (classification_result : ClassificationResult)
    (quality_result : Option QualityResult) (suspicious_result : Option SuspicionResult)
    (document_check : Option DocResult) : Verdict :=
  let quality := quality_result.getD { quality_score := 0, status := "usable", issues := [] }
  let is_high_confidence :=
    (match suspicious_result with
     | some s => s.high_confidence_recyclable
     | none => false)
    || (match document_check with
        | some d => d.high_confidence_recyclable
        | none => false)
  let doc_is_document :=
    match document_check with
    | some d => d.is_document
    | none => false
  if is_high_confidence then
    { status := "usable"
      material := classification_result.label
      confidence := classification_result.confidence
      raw_label := classification_result.raw_label
      is_document := false
      review_required := false
      rejection_reason := none
      specific_issue := none
      recommendations := accepted_recommendations classification_result }
  else if doc_is_document then
    { status := "rejected"
      material := classification_result.label
      confidence := classification_result.confidence
      raw_label := classification_result.raw_label
      is_document := doc_is_document
      review_required := false
      rejection_reason := some "document_detected"
      specific_issue := some "document"
      recommendations :=
        ["This image cannot be used in the marketplace",
         "This image contains too much text and appears to be a document rather than a recyclable item",
         "Please upload photos of actual recyclable materials (fabric, wood, metal, etc.)",
         "Documents, receipts, and papers with text are not accepted",
         "Take a clear photo of just the material itself without any documents or text"] }
  else
    match suspicious_result with
    | some s =>
      if s.is_suspicious then
        if (70 : Rat) < s.suspicious_score then
          { status := "rejected"
            material := classification_result.label
            confidence := classification_result.confidence
            raw_label := classification_result.raw_label
            is_document := doc_is_document
            review_required := false
            rejection_reason := some "suspicious_content"
            specific_issue := s.specific_issue
            recommendations :=
              ["This image cannot be used in the marketplace",
               "This appears to be a " ++ (s.specific_issue.getD "None")
                 ++ " rather than a recyclable material",
               "Please upload photos of actual recyclable materials (fabric, wood, metal, etc.)",
               "Non-material images are not accepted",
               "Take a clear photo of just the material itself"] }
        else
          { status := "pending_review"
            material := classification_result.label
            confidence := classification_result.confidence
            raw_label := classification_result.raw_label
            is_document := doc_is_document
            review_required := true
            rejection_reason := none
            specific_issue := s.specific_issue
            recommendations := review_recommendations }
      else
        process_quality_tail classification_result quality doc_is_document
    | none => process_quality_tail classification_result quality doc_is_document

/-- The document analysis as performed inside
`analyze_for_suspicious_content` (app.py lines 1349-1350): the document
detector is invoked on the lower-cased raw label with the default empty
filename. -/
def docAnalysis (textR : TextResults) (patR : PatternResults)
    (cls : ClassificationResult) : DocResult :=
  detect_document_content textR patR (pyLower cls.raw_label) ""

/-- The consolidated single-image pipeline: oracle predictions are mapped by
`classify_image_with_mobilenet`, screened by `detect_document_content` and
`analyze_for_suspicious_content`, and combined with the quality result by
`process_analysis_results` (the dataflow of the `/predict` handler, app.py
lines 722-745). -/
def pipelineVerdict (textR : TextResults) (patR : PatternResults)
    (decoded_predictions : List Prediction) (quality : QualityResult) : Verdict :=
  let cls := classify_image_with_mobilenet decoded_predictions
  process_analysis_results cls (some quality)
    (some (analyze_for_suspicious_content textR patR cls))
    (some (docAnalysis textR patR cls))

/-- Heuristic output for an image with no text-like structure. -/
def benignText : TextResults :=
  { has_text_pattern := false, confidence := 0, organized_text := false,
    line_clusters := 0, has_central_object := false }

/-- Heuristic output for an image with no document-like visual patterns. -/
def benignPattern : PatternResults :=
  { is_document_pattern := false, confidence := 0, has_recyclable_shape := false }

/-- Heuristic output of a strongly text-patterned image (a document scan):
enough signal to clear every document threshold on its own. -/
def documentText : TextResults :=
  { has_text_pattern := true, confidence := 100, organized_text := true,
    line_clusters := 10, has_central_object := false }

/-- Visual-pattern output of a strongly document-patterned image. -/
def documentPattern : PatternResults :=
  { is_document_pattern := true, confidence := 100, has_recyclable_shape := false }

/-- A fully usable quality result (sharp, well-lit, large image). -/
def usableQuality : QualityResult :=
  { quality_score := 100, status := "usable", issues := [] }

/-- Lower-casing a character is idempotent: lower-casing moves the scalar value out of
the upper-case ASCII range it tests for. -/
theorem charToLower_idem (c : Char) : c.toLower.toLower = c.toLower := by
  unfold Char.toLower
  by_cases h : c.toNat ≥ 65 ∧ c.toNat ≤ 90
  · rw [if_pos h]
    have hv : (c.toNat + 32).isValidChar := Or.inl (by omega)
    have ht : (Char.ofNat (c.toNat + 32)).toNat = c.toNat + 32 := by
      rw [Char.ofNat, dif_pos hv]
      simp [Char.ofNatAux, Char.toNat, UInt32.toNat]
    rw [if_neg]
    rw [ht]
    omega
  · rw [if_neg h, if_neg h]

/-- Lower-casing a string is idempotent, mirroring Python `str.lower()`. -/
theorem pyLower_idem (s : String) : pyLower (pyLower s) = pyLower s := by
  unfold pyLower
  refine congrArg String.mk ?_
  show (s.data.map Char.toLower).map Char.toLower = s.data.map Char.toLower
  rw [List.map_map]
  exact List.map_congr_left (fun c _ => charToLower_idem c)

/-- When the lower-cased raw label has table value at least 90,
`detect_document_content` takes the early high-confidence-recyclable
return (app.py lines 568-583). -/
theorem detect_document_content_high {textR : TextResults} {patR : PatternResults}
    {raw filename : String}
    (h : (90 : Rat) ≤ labelConfidenceOf (pyLower raw)) :
    detect_document_content textR patR raw filename =
      { is_document := false, confidence := 0, has_recyclable_indicators := true,
        recyclable_confidence := labelConfidenceOf (pyLower raw),
        high_confidence_recyclable := true } := by
  unfold detect_document_content
  rw [if_pos h]

/-- The suspicion screener's `high_confidence_recyclable` flag is exactly the
document analysis flag: the screener copies it from its internal
`detect_document_content` call. -/
theorem analyze_hcr_eq_doc (textR : TextResults) (patR : PatternResults)
    (cls : ClassificationResult) :
    (analyze_for_suspicious_content textR patR cls).high_confidence_recyclable
      = (docAnalysis textR patR cls).high_confidence_recyclable := rfl

/-- The decision engine short-circuits to `usable` whenever the suspicion
result carries the high-confidence-recyclable flag (app.py lines
1409-1433). -/
theorem process_status_of_hcr (cls : ClassificationResult) (q : QualityResult)
    (s : SuspicionResult) (d : DocResult)
    (hs : s.high_confidence_recyclable = true) :
    (process_analysis_results cls (some q) (some s) (some d)).status = "usable" := by
  unfold process_analysis_results
  simp [hs]

/-- When no override, document or suspicion signal fired, the decision
engine reduces to its quality/confidence tail (app.py lines 1474-1504). -/
theorem process_tail_reached (cls : ClassificationResult) (q : QualityResult)
    (s : SuspicionResult) (d : DocResult)
    (hs : s.high_confidence_recyclable = false)
    (hd : d.high_confidence_recyclable = false)
    (hdoc : d.is_document = false)
    (hsus : s.is_suspicious = false) :
    process_analysis_results cls (some q) (some s) (some d)
      = process_quality_tail cls q false := by
  unfold process_analysis_results
  simp [hs, hd, hdoc, hsus]

/-- Helper: a sole `bottle` prediction (table value 100) carries the
high-confidence recyclable flag through the pipeline, so the decision engine
accepts it whatever the heuristics and the quality result say. -/
theorem pipeline_bottle95_usable (textR : TextResults) (patR : PatternResults)
    (q : QualityResult) :
    (pipelineVerdict textR patR [⟨"bottle", 95⟩] q).status = "usable" := by
  have h : (90 : Rat) ≤ labelConfidenceOf
      (pyLower (pyLower (classify_image_with_mobilenet
        [⟨"bottle", 95⟩]).raw_label)) := by
    simp +decide [classify_image_with_mobilenet, labelConfidenceOf, recyclable_labels,
      pyLower]
  have hd : (docAnalysis textR patR
      (classify_image_with_mobilenet [⟨"bottle", 95⟩])).high_confidence_recyclable
        = true := by
    unfold docAnalysis
    rw [detect_document_content_high h]
  have hs := (analyze_hcr_eq_doc textR patR
    (classify_image_with_mobilenet [⟨"bottle", 95⟩])).trans hd
  unfold pipelineVerdict
  exact process_status_of_hcr _ _ _ _ hs

/-- C1: if the top raw label is an entry of the fixed recyclable lookup
table with value at least 90 (such as `bottle`, `tool`, `screwdriver`), the
pipeline verdict is the accepted status (spelled `usable` by the code),
whatever the text/visual heuristics and the quality result say: the
document and suspicion checks are bypassed by the high-confidence override. -/
theorem high_confidence_recyclable_override_approves (textR : TextResults)
    (patR : PatternResults) (preds : List Prediction) (quality : QualityResult)
    (h : (90 : Rat) ≤ labelConfidenceOf
      (pyLower (classify_image_with_mobilenet preds).raw_label)) :
    (pipelineVerdict textR patR preds quality).status = "usable" := by
  have hidem : (90 : Rat) ≤ labelConfidenceOf
      (pyLower (pyLower (classify_image_with_mobilenet preds).raw_label)) := by
    rw [pyLower_idem]; exact h
  have hd : (docAnalysis textR patR
      (classify_image_with_mobilenet preds)).high_confidence_recyclable = true := by
    unfold docAnalysis
    rw [detect_document_content_high hidem]
  have hs : (analyze_for_suspicious_content textR patR
      (classify_image_with_mobilenet preds)).high_confidence_recyclable = true := by
    rw [analyze_hcr_eq_doc]; exact hd
  unfold pipelineVerdict
  exact process_status_of_hcr _ _ _ _ hs

/-- C1 witness: a `bottle` top label (table value 100) is accepted even when
both pixel heuristics report maximal document evidence. -/
theorem high_confidence_recyclable_override_approves_witness :
    (90 : Rat) ≤ labelConfidenceOf
      (pyLower (classify_image_with_mobilenet [⟨"bottle", 95⟩]).raw_label)
    ∧ (pipelineVerdict documentText documentPattern [⟨"bottle", 95⟩]
        usableQuality).status = "usable" := by
  have h : (90 : Rat) ≤ labelConfidenceOf
      (pyLower (classify_image_with_mobilenet [⟨"bottle", 95⟩]).raw_label) := by
    simp +decide [classify_image_with_mobilenet, labelConfidenceOf, recyclable_labels,
      pyLower]
  exact ⟨h, high_confidence_recyclable_override_approves documentText documentPattern
    [⟨"bottle", 95⟩] usableQuality h⟩

/-- C10: whenever the accumulated recyclable-indicator confidence reaches 60,
or the lookup-table value of the lower-cased raw label reaches 70, the
document detector reports no document with confidence 0, regardless of the
text/visual pattern evidence (app.py lines 643-647, plus the early return at
lines 568-583). -/
theorem recyclable_override_clears_document_signal (textR : TextResults)
    (patR : PatternResults) (raw filename : String)
    (h : (60 : Rat) ≤ (detect_document_content textR patR raw filename).recyclable_confidence
      ∨ (70 : Rat) ≤ labelConfidenceOf (pyLower raw)) :
    (detect_document_content textR patR raw filename).is_document = false
    ∧ (detect_document_content textR patR raw filename).confidence = 0 := by
  by_cases hhigh : (90 : Rat) ≤ labelConfidenceOf (pyLower raw)
  · rw [detect_document_content_high hhigh]
    exact ⟨rfl, rfl⟩
  · have hrc : (detect_document_content textR patR raw filename).recyclable_confidence
        = labelConfidenceOf (pyLower raw)
          + (if patR.has_recyclable_shape then (35 : Rat) else 0)
          + (if textR.has_central_object then (25 : Rat) else 0) := by
      unfold detect_document_content
      rw [if_neg hhigh]
    have ho : (decide ((60 : Rat) ≤ labelConfidenceOf (pyLower raw)
          + (if patR.has_recyclable_shape then (35 : Rat) else 0)
          + (if textR.has_central_object then (25 : Rat) else 0))
        || decide ((70 : Rat) ≤ labelConfidenceOf (pyLower raw))) = true := by
      rcases h with h | h
      · rw [hrc] at h
        simp [h]
      · simp [h]
    unfold detect_document_content
    rw [if_neg hhigh]
    simp only [ho, if_true]
    exact ⟨trivial, by rw [show round1 0 = 0 from by norm_num [round1],
      min_eq_left (by norm_num)]⟩

/-- C10 witness: the raw label `packet` has table value 70 (below the 90
override), yet maximal document evidence from both heuristics is cleared to
no-document, confidence 0. -/
theorem recyclable_override_clears_document_signal_witness :
    (70 : Rat) ≤ labelConfidenceOf (pyLower "packet")
    ∧ (detect_document_content documentText documentPattern "packet" "").is_document = false
    ∧ (detect_document_content documentText documentPattern "packet" "").confidence = 0 := by
  have h : (70 : Rat) ≤ labelConfidenceOf (pyLower "packet") := by
    simp +decide [labelConfidenceOf, recyclable_labels, pyLower]
  exact ⟨h, recyclable_override_clears_document_signal documentText documentPattern
    "packet" "" (Or.inr h)⟩

/-- C9: the quality check always returns a score in `[20, 100]`: a too-small
image scores exactly 20, a failed statistics computation scores 50, and in
the normal path the blur (40) and darkness/brightness (20) penalties total
at most 60, so the score stays at least 40 and the floor-at-zero clamp is
never reached. -/
theorem quality_score_bounds (stats_failed : Bool) (width height : Nat)
    (lap bright : Rat) :
    ((20 : Rat) ≤ (check_image_quality stats_failed width height lap bright).quality_score
      ∧ (check_image_quality stats_failed width height lap bright).quality_score ≤ 100)
    ∧ (stats_failed = true →
        (check_image_quality stats_failed width height lap bright).quality_score = 50)
    ∧ (stats_failed = false → (width < 100 ∨ height < 100) →
        (check_image_quality stats_failed width height lap bright).quality_score = 20)
    ∧ (stats_failed = false → 100 ≤ width → 100 ≤ height →
        (40 : Rat) ≤ (check_image_quality stats_failed width height lap bright).quality_score) := by
  unfold check_image_quality
  rcases stats_failed with _ | _
  · simp only [Bool.false_eq_true, if_false]
    by_cases hsize : (height < 100 || width < 100) = true
    · rw [if_pos hsize]
      refine ⟨by norm_num, by simp, fun _ _ => rfl, fun _ hw hh => ?_⟩
      simp only [Bool.or_eq_true, decide_eq_true_eq] at hsize
      omega
    · rw [if_neg hsize]
      simp only [Bool.or_eq_true, decide_eq_true_eq, not_or, not_lt] at hsize
      refine ⟨⟨?_, ?_⟩, by simp, fun hw hcon => by omega, fun _ _ _ => ?_⟩ <;>
        · simp only [QualityResult.quality_score]
          split_ifs <;> norm_num [le_max_iff, max_le_iff]
  · rw [if_pos (rfl : true = true)]
    exact ⟨⟨by norm_num, by norm_num⟩, fun _ => rfl,
      fun hc => by simp at hc, fun hc => by simp at hc⟩

/-- C9 witness: a 50-pixel-wide image scores exactly 20, inside the claimed
interval. -/
theorem quality_score_bounds_witness :
    (check_image_quality false 50 200 0 0).quality_score = 20
    ∧ (20 : Rat) ≤ (check_image_quality false 50 200 0 0).quality_score := by
  refine ⟨(quality_score_bounds false 50 200 0 0).2.2.1 rfl (Or.inl (by norm_num)), ?_⟩
  exact (quality_score_bounds false 50 200 0 0).1.1

/-- C3 counterexample: the decision engine never emits the literal status
string `approved` — an accepted bottle image gets status `usable`, which is
outside the claimed four-value enumeration `approved`/`review`/`rejected`/
`error`. -/
theorem verdict_status_literal_counterexample :
    (pipelineVerdict benignText benignPattern [⟨"bottle", 95⟩] usableQuality).status = "usable"
    ∧ "usable" ∉ (["approved", "review", "rejected", "error"] : List String) := by
  constructor
  · exact pipeline_bottle95_usable benignText benignPattern usableQuality
  · decide

/-- C3 amended: every verdict of the decision engine carries one of exactly
four status strings, spelled `usable`, `pending_review`, `rejected`,
`error` by the code (the spec's `approved` and `review` are the code's
`usable` and `pending_review`; `error` arises only from the engine's own
exception handler, which the total embedding has no occasion to enter). -/
theorem verdict_status_enumeration (cls : ClassificationResult)
    (quality_result : Option QualityResult) (suspicious_result : Option SuspicionResult)
    (document_check : Option DocResult) :
    (process_analysis_results cls quality_result suspicious_result document_check).status
      ∈ (["usable", "pending_review", "rejected", "error"] : List String) := by
  unfold process_analysis_results process_quality_tail
  rcases suspicious_result with _ | s <;> rcases document_check with _ | d <;>
    split_ifs <;> simp <;> split_ifs <;> simp

/-- C2 counterexample: a 50-by-50 image (below the 100-pixel minimum, so its
quality result is `low_quality` with the size issue) whose top label is
`bottle` is *accepted*, not rejected — the high-confidence recyclable
override precedes the quality gate, which runs last among the rejection
checks, not first. -/
theorem small_image_not_always_rejected :
    (check_image_quality false 50 50 0 0).status = "low_quality"
    ∧ (check_image_quality false 50 50 0 0).issues = ["Image too small"]
    ∧ (pipelineVerdict benignText benignPattern [⟨"bottle", 95⟩]
        (check_image_quality false 50 50 0 0)).status = "usable" := by
  exact ⟨rfl, rfl,
    pipeline_bottle95_usable benignText benignPattern (check_image_quality false 50 50 0 0)⟩

/-- C2 amended: for an image below the 100-pixel minimum, *provided* no
higher-priority signal fired (no high-confidence recyclable override, no
document flag, no suspicion flag — the quality gate runs after all of
them, not first), the verdict is `rejected` with the size-related reason:
rejection reason `low_quality` and the `Image too small` issue in the
recommendations, regardless of the classification confidence. -/
theorem small_image_rejected_when_no_override (textR : TextResults)
    (patR : PatternResults) (preds : List Prediction) (width height : Nat)
    (lap bright : Rat)
    (hsize : width < 100 ∨ height < 100)
    (hhcr : (analyze_for_suspicious_content textR patR
        (classify_image_with_mobilenet preds)).high_confidence_recyclable = false)
    (hdoc : (docAnalysis textR patR
        (classify_image_with_mobilenet preds)).is_document = false)
    (hsus : (analyze_for_suspicious_content textR patR
        (classify_image_with_mobilenet preds)).is_suspicious = false) :
    (pipelineVerdict textR patR preds
        (check_image_quality false width height lap bright)).status = "rejected"
    ∧ (pipelineVerdict textR patR preds
        (check_image_quality false width height lap bright)).rejection_reason
      = some "low_quality"
    ∧ "Image too small" ∈ (pipelineVerdict textR patR preds
        (check_image_quality false width height lap bright)).recommendations := by
  have hq : check_image_quality false width height lap bright =
      { quality_score := 20, status := "low_quality", issues := ["Image too small"] } := by
    unfold check_image_quality
    rw [if_neg (by simp), if_pos (by simp only [Bool.or_eq_true, decide_eq_true_eq]; omega)]
  have hd : (docAnalysis textR patR
      (classify_image_with_mobilenet preds)).high_confidence_recyclable = false := by
    rw [← analyze_hcr_eq_doc]; exact hhcr
  unfold pipelineVerdict
  rw [process_tail_reached _ _ _ _ hhcr hd hdoc hsus, hq]
  unfold process_quality_tail
  rw [if_pos (by decide)]
  exact ⟨rfl, rfl, by simp⟩

/-- C2 witness: an unrecognized 60-percent label on a 50-pixel-wide image,
with benign heuristics, is rejected for low quality with the size issue
reported. -/
theorem small_image_rejected_when_no_override_witness :
    (pipelineVerdict benignText benignPattern [⟨"xyzzy", 60⟩]
        (check_image_quality false 50 200 0 0)).status = "rejected"
    ∧ "Image too small" ∈ (pipelineVerdict benignText benignPattern [⟨"xyzzy", 60⟩]
        (check_image_quality false 50 200 0 0)).recommendations := by
  have h := small_image_rejected_when_no_override benignText benignPattern
    [⟨"xyzzy", 60⟩] 50 200 0 0 (Or.inl (by norm_num))
    (by simp +decide [analyze_for_suspicious_content, classify_image_with_mobilenet,
      detected_category, MARKETPLACE_CATEGORIES, strContains, pyLower, subOccurs, leadsWith,
      detect_document_content, labelConfidenceOf, recyclable_labels, recyclable_keywords,
      document_filename_keywords, person_keywords, digital_keywords, non_material_keywords,
      round1, benignText, benignPattern])
    (by simp +decide [docAnalysis, detect_document_content, classify_image_with_mobilenet,
      detected_category, MARKETPLACE_CATEGORIES, strContains, pyLower, subOccurs, leadsWith,
      labelConfidenceOf, recyclable_labels, recyclable_keywords, document_filename_keywords,
      round1, benignText, benignPattern])
    (by simp +decide [analyze_for_suspicious_content, classify_image_with_mobilenet,
      detected_category, MARKETPLACE_CATEGORIES, strContains, pyLower, subOccurs, leadsWith,
      detect_document_content, labelConfidenceOf, recyclable_labels, recyclable_keywords,
      document_filename_keywords, person_keywords, digital_keywords, non_material_keywords,
      round1, benignText, benignPattern])
  exact ⟨h.1, h.2.2⟩

/-- C7: the suspicion screener reports `is_suspicious` exactly when the
accumulated score exceeds 40; and when no higher-priority signal fired (no
high-confidence recyclable flag on either sub-result, no document flag) a
suspicious result is rejected above score 70 and sent to review (status
`pending_review`) at or below 70. -/
theorem suspicion_thresholds (textR : TextResults) (patR : PatternResults)
    (cls : ClassificationResult) (q : QualityResult) (s : SuspicionResult)
    (d : DocResult)
    (hs : s.high_confidence_recyclable = false)
    (hd : d.high_confidence_recyclable = false)
    (hdoc : d.is_document = false)
    (hsusp : s.is_suspicious = true) :
    ((analyze_for_suspicious_content textR patR cls).is_suspicious = true
      ↔ (40 : Rat) < (analyze_for_suspicious_content textR patR cls).suspicious_score)
    ∧ (process_analysis_results cls (some q) (some s) (some d)).status
        = (if (70 : Rat) < s.suspicious_score then "rejected" else "pending_review") := by
  constructor
  · unfold analyze_for_suspicious_content
    simp
  · unfold process_analysis_results
    simp only [hs, hd, hdoc, hsusp, Bool.or_eq_true, Bool.false_eq_true, or_false,
      if_false, if_true]
    split_ifs <;> rfl

/-- C7 witness: a suspicion record of score 80 (no overriding signals) is
rejected by the decision engine. -/
theorem suspicion_thresholds_witness :
    (process_analysis_results ⟨"other", "x", 50, []⟩ (some usableQuality)
        (some ⟨true, 80, some "personal_image", false⟩)
        (some ⟨false, 0, false, 0, false⟩)).status = "rejected" := by
  have h := (suspicion_thresholds benignText benignPattern ⟨"other", "x", 50, []⟩
    usableQuality ⟨true, 80, some "personal_image", false⟩
    ⟨false, 0, false, 0, false⟩ rfl rfl rfl rfl).2
  rw [if_pos (by norm_num)] at h
  exact h

/-- C8 counterexample: with top label `xyzzy` (no category keyword) and a
second-ranked `bottle` at 50 percent (which *would* map to `plastic`), the
category mapper returns `other` with the top prediction's confidence 80 —
no fallback pass over secondary predictions exists in
`classify_image_with_mobilenet`. -/
theorem no_secondary_fallback_counterexample :
    detected_category "bottle" = "plastic"
    ∧ (classify_image_with_mobilenet [⟨"xyzzy", 80⟩, ⟨"bottle", 50⟩]).label = "other"
    ∧ (classify_image_with_mobilenet [⟨"xyzzy", 80⟩, ⟨"bottle", 50⟩]).confidence = 80 := by
  refine ⟨?_, ?_, rfl⟩ <;>
    simp +decide [classify_image_with_mobilenet, detected_category, MARKETPLACE_CATEGORIES,
      strContains, pyLower, subOccurs, leadsWith]

/-- C8 amended: the category mapper consults only the top prediction: the
detected category and the reported confidence are those of the top entry,
unchanged by whatever secondary predictions follow (which are merely echoed
in `all_predictions`). -/
theorem secondary_predictions_never_override (top : Prediction)
    (rest : List Prediction) :
    (classify_image_with_mobilenet (top :: rest)).label
        = (classify_image_with_mobilenet [top]).label
    ∧ (classify_image_with_mobilenet (top :: rest)).label = detected_category top.label
    ∧ (classify_image_with_mobilenet (top :: rest)).confidence = top.confidence
    ∧ (classify_image_with_mobilenet (top :: rest)).all_predictions = top :: rest :=
  ⟨rfl, rfl, rfl, rfl⟩

/-- C4 counterexample: a top label `pet` with *no* plastic-container keyword
among the secondary predictions is not flagged either — the screener's
non-material keyword list (`landscape`, `scenery`, `building`, `food`,
`animal`) simply never matches `pet`, so no plastic-context-specific
suppression exists (the claim's "exactly that context"). -/
theorem pet_without_plastic_context_not_flagged :
    (analyze_for_suspicious_content benignText benignPattern
        (classify_image_with_mobilenet [⟨"pet", 80⟩, ⟨"dog", 5⟩])).is_suspicious = false
    ∧ (analyze_for_suspicious_content benignText benignPattern
        (classify_image_with_mobilenet [⟨"pet", 80⟩, ⟨"dog", 5⟩])).specific_issue = none
    ∧ (pipelineVerdict benignText benignPattern [⟨"pet", 80⟩, ⟨"dog", 5⟩]
        usableQuality).status = "usable" := by
  refine ⟨?_, ?_, ?_⟩ <;>
    simp +decide [pipelineVerdict, docAnalysis, analyze_for_suspicious_content,
      classify_image_with_mobilenet, detected_category, MARKETPLACE_CATEGORIES,
      strContains, pyLower, subOccurs, leadsWith, detect_document_content,
      labelConfidenceOf, recyclable_labels, recyclable_keywords,
      document_filename_keywords, person_keywords, digital_keywords,
      non_material_keywords, round1, benignText, benignPattern,
      process_analysis_results, process_quality_tail, usableQuality]

/-- C4 amended: the suspicion screener never flags a top label `pet` as
non-material/animal content, with or without a plastic-container keyword
among the secondary predictions — in particular a `pet` top label with a
`bottle` secondary prediction is never rejected under the animal category. -/
theorem pet_never_flagged_as_animal (textR : TextResults) (patR : PatternResults)
    (c : Rat) (rest : List Prediction) :
    (analyze_for_suspicious_content textR patR
        (classify_image_with_mobilenet (⟨"pet", c⟩ :: rest))).specific_issue
      ≠ some "non_material" := by
  unfold analyze_for_suspicious_content classify_image_with_mobilenet
  simp +decide [detected_category, MARKETPLACE_CATEGORIES, strContains, pyLower,
    subOccurs, leadsWith, detect_document_content, labelConfidenceOf, recyclable_labels,
    recyclable_keywords, document_filename_keywords, person_keywords, digital_keywords,
    non_material_keywords, round1]
  split_ifs <;> simp

/-- C4 witness: the claimed instance itself — top label `pet` with a
`bottle` secondary prediction is not flagged as non-material/animal. -/
theorem pet_never_flagged_as_animal_witness :
    (analyze_for_suspicious_content benignText benignPattern
        (classify_image_with_mobilenet [⟨"pet", 80⟩, ⟨"bottle", 15⟩])).specific_issue
      ≠ some "non_material" :=
  pet_never_flagged_as_animal benignText benignPattern 80 [⟨"bottle", 15⟩]

/-- The suspicion screener's full output on a sole `timber` prediction with
benign pixel heuristics: only the low-confidence penalty can fire, so the
image is never suspicious. -/
theorem analyze_timber (c : Rat) :
    analyze_for_suspicious_content benignText benignPattern
        (classify_image_with_mobilenet [⟨"timber", c⟩])
      = { is_suspicious := false,
          suspicious_score := if c < 20 then 30 else 0,
          specific_issue := if c < 20 then some "low_confidence" else none,
          high_confidence_recyclable := false } := by
  unfold analyze_for_suspicious_content classify_image_with_mobilenet
  by_cases h : c < (20 : Rat) <;>
    simp +decide [h, detected_category, MARKETPLACE_CATEGORIES, strContains, pyLower,
      subOccurs, leadsWith, detect_document_content, labelConfidenceOf, recyclable_labels,
      recyclable_keywords, document_filename_keywords, person_keywords, digital_keywords,
      non_material_keywords, round1, benignText, benignPattern]

/-- The document analysis of a sole `timber` prediction with benign pixel
heuristics raises no flags. -/
theorem docAnalysis_timber (c : Rat) :
    (docAnalysis benignText benignPattern
        (classify_image_with_mobilenet [⟨"timber", c⟩])).is_document = false
    ∧ (docAnalysis benignText benignPattern
        (classify_image_with_mobilenet [⟨"timber", c⟩])).high_confidence_recyclable
      = false := by
  constructor <;>
    simp +decide [docAnalysis, classify_image_with_mobilenet, detected_category,
      MARKETPLACE_CATEGORIES, strContains, pyLower, subOccurs, leadsWith,
      detect_document_content, labelConfidenceOf, recyclable_labels, recyclable_keywords,
      document_filename_keywords, round1, benignText, benignPattern]

/-- C5 counterexample: `timber` maps to the high-reliability category `wood`,
yet at 13 percent confidence the verdict is `pending_review`, not the
accepted status — there is no 12-percent auto-approval boundary for wood. -/
theorem wood_13_percent_not_approved :
    (classify_image_with_mobilenet [⟨"timber", 13⟩]).label = "wood"
    ∧ (pipelineVerdict benignText benignPattern [⟨"timber", 13⟩] usableQuality).status
        = "pending_review" := by
  constructor
  · simp +decide [classify_image_with_mobilenet, detected_category,
      MARKETPLACE_CATEGORIES, strContains, pyLower, subOccurs, leadsWith]
  · have hA := analyze_timber 13
    have hD := docAnalysis_timber 13
    have hred : pipelineVerdict benignText benignPattern [⟨"timber", 13⟩] usableQuality
        = process_quality_tail (classify_image_with_mobilenet [⟨"timber", 13⟩])
            usableQuality false := by
      unfold pipelineVerdict
      exact process_tail_reached _ _ _ _ (by rw [hA]) hD.2 hD.1 (by rw [hA])
    rw [hred]
    unfold process_quality_tail
    rw [if_neg (by decide), if_pos (show (classify_image_with_mobilenet
      [⟨"timber", 13⟩]).confidence < 50 from by decide)]

/-- C5 amended: with no higher-priority signal (benign heuristics, a
non-low-quality image) the approval boundary for a `wood`-mapped label sits
at 50 percent classifier confidence, not 12: below 50 the verdict is
`pending_review`, at or above 50 it is the accepted status `usable` —
in particular 13 percent and 10 percent both go to review. -/
theorem wood_review_boundary_at_50 (c : Rat) (q : QualityResult)
    (hq : q.status ≠ "low_quality") :
    (c < 50 → (pipelineVerdict benignText benignPattern [⟨"timber", c⟩] q).status
        = "pending_review")
    ∧ (50 ≤ c → (pipelineVerdict benignText benignPattern [⟨"timber", c⟩] q).status
        = "usable") := by
  have hA := analyze_timber c
  have hD := docAnalysis_timber c
  have hsus : (analyze_for_suspicious_content benignText benignPattern
      (classify_image_with_mobilenet [⟨"timber", c⟩])).is_suspicious = false := by
    rw [hA]
  have hred : pipelineVerdict benignText benignPattern [⟨"timber", c⟩] q
      = process_quality_tail (classify_image_with_mobilenet [⟨"timber", c⟩]) q false := by
    unfold pipelineVerdict
    exact process_tail_reached _ _ _ _ (by rw [hA]) hD.2 hD.1 hsus
  rw [hred]
  unfold process_quality_tail
  rw [if_neg (by simp [hq])]
  constructor
  · intro hc
    rw [if_pos (show (classify_image_with_mobilenet
      [⟨"timber", c⟩]).confidence < 50 from hc)]
  · intro hc
    rw [if_neg (not_lt.mpr (show (50 : Rat) ≤
      (classify_image_with_mobilenet [⟨"timber", c⟩]).confidence from hc))]

/-- C5 witness: `timber` at 13 percent goes to review; at 55 percent it is
accepted. -/
theorem wood_review_boundary_at_50_witness :
    (pipelineVerdict benignText benignPattern [⟨"timber", 13⟩] usableQuality).status
        = "pending_review"
    ∧ (pipelineVerdict benignText benignPattern [⟨"timber", 55⟩] usableQuality).status
        = "usable" :=
  ⟨(wood_review_boundary_at_50 13 usableQuality (by decide)).1 (by norm_num),
   (wood_review_boundary_at_50 55 usableQuality (by decide)).2 (by norm_num)⟩

/-- The suspicion screener's output on the classifier-failure placeholder
(`unknown` at confidence 0) with benign heuristics: only the low-confidence
penalty (30) fires, below the suspicion threshold. -/
theorem analyze_failure_eq :
    analyze_for_suspicious_content benignText benignPattern
        classification_failure_result
      = { is_suspicious := false, suspicious_score := 30,
          specific_issue := some "low_confidence",
          high_confidence_recyclable := false } := by
  unfold analyze_for_suspicious_content
  simp +decide [classification_failure_result, detect_document_content, labelConfidenceOf,
    recyclable_labels, recyclable_keywords, document_filename_keywords, person_keywords,
    digital_keywords, non_material_keywords, strContains, pyLower, subOccurs, leadsWith,
    round1, benignText, benignPattern]

/-- The document analysis of the classifier-failure placeholder with benign
heuristics raises no flags. -/
theorem docAnalysis_failure :
    (docAnalysis benignText benignPattern classification_failure_result).is_document = false
    ∧ (docAnalysis benignText benignPattern
        classification_failure_result).high_confidence_recyclable = false := by
  constructor <;>
    simp +decide [docAnalysis, classification_failure_result, detect_document_content,
      labelConfidenceOf, recyclable_labels, recyclable_keywords, document_filename_keywords,
      strContains, pyLower, subOccurs, leadsWith, round1, benignText, benignPattern]

/-- C6 counterexample: when the classifier call fails, the code substitutes
the placeholder classification (`unknown`, confidence 0) and the pipeline
continues: with an otherwise fine image the decision engine returns
`pending_review`, not an `error` verdict. -/
theorem classifier_failure_not_error :
    classification_failure_result.raw_label = "unknown"
    ∧ classification_failure_result.confidence = 0
    ∧ (process_analysis_results classification_failure_result (some usableQuality)
        (some (analyze_for_suspicious_content benignText benignPattern
          classification_failure_result))
        (some (docAnalysis benignText benignPattern
          classification_failure_result))).status = "pending_review"
    ∧ (process_analysis_results classification_failure_result (some usableQuality)
        (some (analyze_for_suspicious_content benignText benignPattern
          classification_failure_result))
        (some (docAnalysis benignText benignPattern
          classification_failure_result))).status ≠ "error" := by
  refine ⟨rfl, rfl, ?_, ?_⟩ <;>
  · rw [process_tail_reached _ _ _ _ (by rw [analyze_failure_eq]) docAnalysis_failure.2
        docAnalysis_failure.1 (by rw [analyze_failure_eq])]
    unfold process_quality_tail
    rw [if_neg (by decide), if_pos (show classification_failure_result.confidence < 50
      from by decide)]
    try decide

/-- C6 amended: a classifier failure is degraded to the placeholder
classification (`unknown`, confidence 0) and the pipeline continues to a
normal verdict — for any non-low-quality image with benign heuristics the
result is `pending_review` with admin review required, never a top-level
`error` verdict (only fetch/decode failures surface `error`, in the HTTP
handler outside the decision engine). -/
theorem classifier_failure_degrades_to_review (q : QualityResult)
    (hq : q.status ≠ "low_quality") :
    (process_analysis_results classification_failure_result (some q)
        (some (analyze_for_suspicious_content benignText benignPattern
          classification_failure_result))
        (some (docAnalysis benignText benignPattern
          classification_failure_result))).status = "pending_review"
    ∧ (process_analysis_results classification_failure_result (some q)
        (some (analyze_for_suspicious_content benignText benignPattern
          classification_failure_result))
        (some (docAnalysis benignText benignPattern
          classification_failure_result))).review_required = true := by
  rw [process_tail_reached _ _ _ _ (by rw [analyze_failure_eq]) docAnalysis_failure.2
      docAnalysis_failure.1 (by rw [analyze_failure_eq])]
  unfold process_quality_tail
  rw [if_neg (by simp [hq]), if_pos (show classification_failure_result.confidence < 50
    from by decide)]
  exact ⟨rfl, rfl⟩

/-- C6 witness: with a fully usable image, classifier failure yields a
pending-review verdict. -/
theorem classifier_failure_degrades_to_review_witness :
    (process_analysis_results classification_failure_result (some usableQuality)
        (some (analyze_for_suspicious_content benignText benignPattern
          classification_failure_result))
        (some (docAnalysis benignText benignPattern
          classification_failure_result))).review_required = true :=
  (classifier_failure_degrades_to_review usableQuality (by decide)).2

end Ecoloop
